import Mathlib

/-!
Verification of the evm-adapters core: the evmodin engine adapter
(`evm-adapters/src/evmodin.rs`) and the sputnik cheatcode interception
handler (`evm-adapters/src/sputnik/cheatcodes/cheatcode_handler.rs`).

Machine integers (`U256`, `H160`, `H256`, bytes) are modelled as `Nat`:
the code under verification only ever compares them for equality, stores
them, or passes them through unchanged, so no overflow arithmetic occurs.
External library types (the evmodin `StatusCode`, `Message`, `Output`,
the sputnik `ExitReason`, `Capture`, `Context`, `Transfer`,
`CreateScheme`) are transcribed with the fields and constructors the
adapter code touches; fully external behaviour (the bytecode
interpreter, the ABI codec, the keccak hash, the wrapped sputnik
`StackExecutor`) is kept abstract as function parameters, matching the
spec's "opaque engine / opaque codec" scoping.
-/

/-- 20-byte account address, modelled as `Nat` (only equality is used). -/
abbrev Address := Nat

/-- The evmodin `StatusCode` enum: the execution result classification
returned by the engine.  The adapter only distinguishes `Success`,
`Revert` and "anything else". -/
inductive StatusCode where
  | Success
  | Failure
  | Revert
  | OutOfGas
  | InvalidInstruction
  | UndefinedInstruction
  | StackOverflow
  | StackUnderflow
  | BadJumpDestination
  | InvalidMemoryAccess
  | CallDepthExceeded
  | StaticModeViolation
  | PrecompileFailure
  | ArgumentOutOfRange
  | InsufficientBalance
  | InternalError
deriving DecidableEq, Repr

/-- The evmodin `CallKind` enum. -/
inductive CallKind where
  | Call
  | DelegateCall
  | CallCode
  | Create
  | Create2
deriving DecidableEq, Repr

/-- The evmodin `Revision` enum (opcode rule-set version); opaque to the
adapter, which only threads it through to the engine. -/
inductive Revision where
  | Frontier
  | Homestead
  | Byzantium
  | Constantinople
  | Petersburg
  | Istanbul
  | Berlin
  | London
deriving DecidableEq, Repr

/-- The ethers ABI `StateMutability` enum of a function descriptor. -/
inductive StateMutability where
  | Pure
  | View
  | NonPayable
  | Payable
deriving DecidableEq, Repr

/-- The ethers ABI `Function` descriptor: only the fields the adapter
reads (`constant`, `state_mutability`); name/inputs/outputs are consumed
solely by the opaque ABI codec. -/
structure Function where
  constant : Bool
  state_mutability : StateMutability
deriving DecidableEq, Repr

/-- The evmodin `Message` built by `EvmOdin::call`. -/
structure Message where
  sender : Address
  destination : Address
  depth : Nat
  kind : CallKind
  input_data : List Nat
  value : Nat
  gas : Int
  is_static : Bool
deriving DecidableEq, Repr

/-- The evmodin `Output` of `AnalyzedCode::execute`. -/
structure Output where
  status_code : StatusCode
  gas_left : Int
  output_data : List Nat
  create_address : Option Address
deriving DecidableEq, Repr

/-- An account of the evmodin `MockedHost`: nonce, balance, code, code
hash and a storage map (modelled as an association list, created empty). -/
structure Account where
  nonce : Nat
  balance : Nat
  code : List Nat
  code_hash : List Nat
  storage : List (Nat × Nat)
deriving DecidableEq, Repr

/-- The evmodin `MockedHost`, restricted to the `accounts` map the
`HostExt` implementation reads and writes (modelled as a total function
to `Option Account`, like `HashMap::get` / `HashMap::insert`). -/
structure MockedHost where
  accounts : Address → Option Account

/-- The `HostExt` trait: the code-storage seam every pluggable host must
provide (`get_code` / `set_code`). -/
structure HostExt (S : Type) where
  get_code : S → Address → Option (List Nat)
  set_code : S → Address → List Nat → S

/-- `EvmOdin` adapter struct: host state, gas limit, optional call kind,
revision and tracer. -/
structure EvmOdin (S T : Type) where
  host : S
  gas_limit : Nat
  call_kind : Option CallKind
  revision : Revision
  tracer : T

/-- `HostExt::get_code` for `MockedHost`:
`self.accounts.get(address).map(|acc| &acc.code)`. -/
def MockedHost.get_code (self : MockedHost) (address : Address) : Option (List Nat) :=
  (self.accounts address).map Account.code

/-- `HostExt::set_code` for `MockedHost`: hashes the bytecode (the
keccak256 hash is the opaque external `hash` parameter) and inserts a
freshly constructed account at the address. -/
def MockedHost.set_code (hash : List Nat → List Nat) (self : MockedHost)
    (address : Address) (bytecode : List Nat) : MockedHost :=
  { accounts := fun a =>
      if a = address then
        some { nonce := 0
               balance := 0
               code := bytecode
               code_hash := hash bytecode
               storage := [] }
      else self.accounts a }

/-- The `HostExt` dictionary for `MockedHost`, parameterised by the
opaque keccak256 hash. -/
def MockedHost.hostExt (hash : List Nat → List Nat) : HostExt MockedHost :=
  { get_code := MockedHost.get_code
    set_code := MockedHost.set_code hash }

/-- `Evm::reset` for `EvmOdin`: replaces the owned host state. -/
def EvmOdin.reset (self : EvmOdin S T) (state : S) : EvmOdin S T :=
  { self with host := state }

/-- `Evm::initialize_contracts` for `EvmOdin`: for each entry, installs
the bytecode at that address via `HostExt::set_code`. -/
def EvmOdin.initialize_contracts (he : HostExt S) (self : EvmOdin S T)
    (contracts : List (Address × List Nat)) : EvmOdin S T :=
  { self with
    host := contracts.foldl (fun h p => he.set_code h p.1 p.2) self.host }

/-- `Evm::init_state` for `EvmOdin`: read-only accessor of the host. -/
def EvmOdin.init_state (self : EvmOdin S T) : S :=
  self.host

/-- `Evm::check_success` for `EvmOdin`.  The `failed` parameter models
the side-channel `failed()` probe call (a method of the surrounding
`Evm` trait, outside this adapter): `self.failed(address)` returns
`Result<bool>`, modelled as `Option Bool`, and the code applies
`.unwrap_or(false)`. -/
def EvmOdin.check_success (failed : Address → Option Bool) (address : Address)
    (result : StatusCode) (should_fail : Bool) : Bool :=
  if should_fail then
    match result with
    | StatusCode.Revert => true
    | StatusCode.Success => (failed address).getD false
    | _ => false
  else
    match result with
    | StatusCode.Success => true
    | _ => false

/-- The `Message` literal constructed inside `EvmOdin::call`: static
flag from the deprecated `constant` field OR a view/pure mutability. -/
def call_message (gas_limit : Nat) (call_kind : Option CallKind)
    (from_ to_ : Address) (calldata : List Nat) (value : Nat)
    (func : Function) : Message :=
  { sender := from_
    destination := to_
    depth := 0
    kind := call_kind.getD CallKind.Call
    input_data := calldata
    value := value
    gas := (gas_limit : Int)
    is_static := func.constant ||
      (match func.state_mutability with
       | StateMutability.View => true
       | StateMutability.Pure => true
       | _ => false) }

/-- `Evm::call` for `EvmOdin`: encode the calldata (opaque `encode`
codec, errors propagate), build the message, fetch the destination code
(erroring with the "no contract" message when absent), run the opaque
engine `execute`, decode the raw output (opaque `decode` codec, errors
propagate), and return the decoded data, status and a zero gas figure. -/
def EvmOdin.call (he : HostExt S)
    (encode : Function → A → Except String (List Nat))
    (execute : List Nat → S → T → Message → Revision → S × T × Output)
    (decode : Function → List Nat → Bool → Except String D)
    (self : EvmOdin S T) (from_ to_ : Address) (func : Function)
    (args : A) (value : Nat) :
    Except String (EvmOdin S T × D × StatusCode × Nat) :=
  match encode func args with
  | Except.error e => Except.error e
  | Except.ok calldata =>
    let message := call_message self.gas_limit self.call_kind from_ to_ calldata value func
    match he.get_code self.host to_ with
    | none => Except.error "there should be a smart contract at the destination address"
    | some bytecode =>
      let out := execute bytecode self.host self.tracer message self.revision
      match decode func out.2.2.output_data false with
      | Except.error e => Except.error e
      | Except.ok retdata =>
        Except.ok ({ self with host := out.1, tracer := out.2.1 },
                   retdata, out.2.2.status_code, 0)

/-- The sputnik `ExitSucceed` enum. -/
inductive ExitSucceed where
  | Stopped
  | Returned
  | Suicided
deriving DecidableEq, Repr

/-- The sputnik `ExitError` enum (representative constructors; the
handler only threads these values through). -/
inductive ExitError where
  | StackUnderflow
  | StackOverflow
  | InvalidJump
  | InvalidRange
  | DesignatedInvalid
  | CallTooDeep
  | CreateCollision
  | CreateContractLimit
  | OutOfOffset
  | OutOfGas
  | OutOfFund
  | Other (msg : List Nat)
deriving DecidableEq, Repr

/-- The sputnik `ExitRevert` enum. -/
inductive ExitRevert where
  | Reverted
deriving DecidableEq, Repr

/-- The sputnik `ExitFatal` enum. -/
inductive ExitFatal where
  | NotSupported
  | UnhandledInterrupt
  | CallErrorAsFatal (e : ExitError)
deriving DecidableEq, Repr

/-- The sputnik `ExitReason` enum. -/
inductive ExitReason where
  | Succeed (s : ExitSucceed)
  | Error (e : ExitError)
  | Revert (r : ExitRevert)
  | Fatal (f : ExitFatal)
deriving DecidableEq, Repr

/-- The sputnik `Capture<E, T>` enum: either an exit value or a trap.
The handler instantiates the trap type with `Infallible` (`Empty`). -/
inductive Capture (E T : Type) where
  | Exit (e : E)
  | Trap (t : T)
deriving DecidableEq, Repr

/-- The sputnik call `Context`: code address, caller and apparent value. -/
structure Context where
  address : Nat
  caller : Nat
  apparent_value : Nat
deriving DecidableEq, Repr

/-- The sputnik `Transfer`: source, target and value. -/
structure Transfer where
  source : Nat
  target : Nat
  value : Nat
deriving DecidableEq, Repr

/-- The sputnik `CreateScheme` enum. -/
inductive CreateScheme where
  | Legacy (caller : Nat)
  | Create2 (caller : Nat) (code_hash : Nat) (salt : Nat)
  | Fixed (address : Nat)
deriving DecidableEq, Repr

/-- Modelled from the spec: the `Cheatcodes` struct of the cheatcodes
module (its defining file is not under `src/`): a small struct of
optional context overrides, currently the block-timestamp override,
which `apply_cheatcode` in `src/` sets with
`state.backend.cheats.block_timestamp = Some(100.into())`. -/
structure Cheatcodes where
  block_timestamp : Option Nat
deriving DecidableEq, Repr

/-- Modelled from the spec: the `CheatcodeBackend<B>` wrapper (its
defining file is not under `src/`): a native backend `B` layered with
the cheat context, exposing the `backend` and `cheats` fields that
`apply_cheatcode` in `src/` reaches through. -/
structure CheatcodeBackend (B : Type) where
  backend : B
  cheats : Cheatcodes

/-- Modelled from the spec: `MemoryStackStateOwned<'a, B>` (its defining
file is not under `src/`): the owned stack state, holding the backend by
value (plus opaque substate internals `ρ`) so cheat processing can
mutate it mid-call. -/
structure MemoryStackStateOwned (β ρ : Type) where
  backend : β
  substate : ρ

/-- The sputnik `StackExecutor<'a, S>` (external library): owns its
stack state `S` plus opaque internals `ι` (config, precompiles, gas
metadata). -/
structure StackExecutor (S ι : Type) where
  state : S
  internals : ι

/-- `CheatcodeStackState<'a, B> = MemoryStackStateOwned<'a, CheatcodeBackend<B>>`. -/
abbrev CheatcodeStackState (B ρ : Type) := MemoryStackStateOwned (CheatcodeBackend B) ρ

/-- The `CheatcodeHandler<H>` wrapper struct: owns the inner handler. -/
structure CheatcodeHandler (H : Type) where
  handler : H

/-- `CheatcodeStackExecutor<'a, B> = CheatcodeHandler<StackExecutor<'a, CheatcodeStackState<'a, B>>>`. -/
abbrev CheatcodeStackExecutor (B ρ ι : Type) :=
  CheatcodeHandler (StackExecutor (CheatcodeStackState B ρ) ι)

/-- `CHEATCODE_ADDRESS`: the reserved dispatch address
`0x7109709ECfa91a80626fF3989D68f67F5b1DD12D`. -/
def CHEATCODE_ADDRESS : Nat := 0x7109709ECfa91a80626fF3989D68f67F5b1DD12D

/-- The behaviour of the wrapped engine's `Handler` trait implementation
(the external sputnik `StackExecutor`), as consumed through
`self.handler.<op>` calls: read operations are functions of the handler
value, mutating operations additionally return the updated handler.
`exists_` models the trait's `exists` operation (a reserved word here). -/
structure HandlerOps (σ : Type) where
  call : σ → Nat → Option Transfer → List Nat → Option Nat → Bool → Context →
    σ × Capture (ExitReason × List Nat) Empty
  balance : σ → Nat → Nat
  code_size : σ → Nat → Nat
  code_hash : σ → Nat → Nat
  code : σ → Nat → List Nat
  storage : σ → Nat → Nat → Nat
  original_storage : σ → Nat → Nat → Nat
  gas_left : σ → Nat
  gas_price : σ → Nat
  origin : σ → Nat
  block_hash : σ → Nat → Nat
  block_number : σ → Nat
  block_coinbase : σ → Nat
  block_timestamp : σ → Nat
  block_difficulty : σ → Nat
  block_gas_limit : σ → Nat
  chain_id : σ → Nat
  exists_ : σ → Nat → Bool
  deleted : σ → Nat → Bool
  is_cold : σ → Nat → Option Nat → Bool
  set_storage : σ → Nat → Nat → Nat → σ × Option ExitError
  log : σ → Nat → List Nat → List Nat → σ × Option ExitError
  mark_delete : σ → Nat → Nat → σ × Option ExitError
  create : σ → Nat → CreateScheme → Nat → List Nat → Option Nat →
    σ × Capture (ExitReason × Option Nat × List Nat) Empty
  pre_validate : σ → Context → Nat → List Nat → σ × Option ExitError

/-- `CheatcodeStackExecutor::apply_cheatcode`: ignores the input
payload, sets the cheat context's block-timestamp override to 100 via
`state_mut`, and exits with `Succeed(Stopped)` and 32 bytes of `0x01`. -/
def apply_cheatcode (self : CheatcodeStackExecutor B ρ ι) (_input : List Nat) :
    CheatcodeStackExecutor B ρ ι × Capture (ExitReason × List Nat) Empty :=
  ({ handler :=
      { self.handler with
        state :=
          { self.handler.state with
            backend :=
              { self.handler.state.backend with
                cheats :=
                  { self.handler.state.backend.cheats with
                    block_timestamp := some 100 } } } } },
   Capture.Exit (ExitReason.Succeed ExitSucceed.Stopped, List.replicate 32 1))

/-- `Handler::call` for `CheatcodeStackExecutor`: intercepts calls whose
`code_address` is `CHEATCODE_ADDRESS` and diverts them to
`apply_cheatcode`; every other call is forwarded to the inner handler
with identical arguments. -/
def CheatcodeHandler.call (ops : HandlerOps (StackExecutor (CheatcodeStackState B ρ) ι))
    (self : CheatcodeStackExecutor B ρ ι) (code_address : Nat)
    (transfer : Option Transfer) (input : List Nat) (target_gas : Option Nat)
    (is_static : Bool) (context : Context) :
    CheatcodeStackExecutor B ρ ι × Capture (ExitReason × List Nat) Empty :=
  if code_address = CHEATCODE_ADDRESS then
    apply_cheatcode self input
  else
    let r := ops.call self.handler code_address transfer input target_gas is_static context
    ({ handler := r.1 }, r.2)

/-- `Handler::balance` for `CheatcodeStackExecutor` (forwarded). -/
def CheatcodeHandler.balance (ops : HandlerOps σ) (self : CheatcodeHandler σ)
    (address : Nat) : Nat :=
  ops.balance self.handler address

/-- `Handler::code_size` for `CheatcodeStackExecutor` (forwarded). -/
def CheatcodeHandler.code_size (ops : HandlerOps σ) (self : CheatcodeHandler σ)
    (address : Nat) : Nat :=
  ops.code_size self.handler address

/-- `Handler::code_hash` for `CheatcodeStackExecutor` (forwarded). -/
def CheatcodeHandler.code_hash (ops : HandlerOps σ) (self : CheatcodeHandler σ)
    (address : Nat) : Nat :=
  ops.code_hash self.handler address

/-- `Handler::code` for `CheatcodeStackExecutor` (forwarded). -/
def CheatcodeHandler.code (ops : HandlerOps σ) (self : CheatcodeHandler σ)
    (address : Nat) : List Nat :=
  ops.code self.handler address

/-- `Handler::storage` for `CheatcodeStackExecutor` (forwarded). -/
def CheatcodeHandler.storage (ops : HandlerOps σ) (self : CheatcodeHandler σ)
    (address : Nat) (index : Nat) : Nat :=
  ops.storage self.handler address index

/-- `Handler::original_storage` for `CheatcodeStackExecutor` (forwarded). -/
def CheatcodeHandler.original_storage (ops : HandlerOps σ) (self : CheatcodeHandler σ)
    (address : Nat) (index : Nat) : Nat :=
  ops.original_storage self.handler address index

/-- `Handler::gas_left` for `CheatcodeStackExecutor` (forwarded). -/
def CheatcodeHandler.gas_left (ops : HandlerOps σ) (self : CheatcodeHandler σ) : Nat :=
  ops.gas_left self.handler

/-- `Handler::gas_price` for `CheatcodeStackExecutor` (forwarded). -/
def CheatcodeHandler.gas_price (ops : HandlerOps σ) (self : CheatcodeHandler σ) : Nat :=
  ops.gas_price self.handler

/-- `Handler::origin` for `CheatcodeStackExecutor` (forwarded). -/
def CheatcodeHandler.origin (ops : HandlerOps σ) (self : CheatcodeHandler σ) : Nat :=
  ops.origin self.handler

/-- `Handler::block_hash` for `CheatcodeStackExecutor` (forwarded). -/
def CheatcodeHandler.block_hash (ops : HandlerOps σ) (self : CheatcodeHandler σ)
    (number : Nat) : Nat :=
  ops.block_hash self.handler number

/-- `Handler::block_number` for `CheatcodeStackExecutor` (forwarded). -/
def CheatcodeHandler.block_number (ops : HandlerOps σ) (self : CheatcodeHandler σ) : Nat :=
  ops.block_number self.handler

/-- `Handler::block_coinbase` for `CheatcodeStackExecutor` (forwarded). -/
def CheatcodeHandler.block_coinbase (ops : HandlerOps σ) (self : CheatcodeHandler σ) : Nat :=
  ops.block_coinbase self.handler

/-- `Handler::block_timestamp` for `CheatcodeStackExecutor` (forwarded). -/
def CheatcodeHandler.block_timestamp (ops : HandlerOps σ) (self : CheatcodeHandler σ) : Nat :=
  ops.block_timestamp self.handler

/-- `Handler::block_difficulty` for `CheatcodeStackExecutor` (forwarded). -/
def CheatcodeHandler.block_difficulty (ops : HandlerOps σ) (self : CheatcodeHandler σ) : Nat :=
  ops.block_difficulty self.handler

/-- `Handler::block_gas_limit` for `CheatcodeStackExecutor` (forwarded). -/
def CheatcodeHandler.block_gas_limit (ops : HandlerOps σ) (self : CheatcodeHandler σ) : Nat :=
  ops.block_gas_limit self.handler

/-- `Handler::chain_id` for `CheatcodeStackExecutor` (forwarded). -/
def CheatcodeHandler.chain_id (ops : HandlerOps σ) (self : CheatcodeHandler σ) : Nat :=
  ops.chain_id self.handler

/-- `Handler::exists` for `CheatcodeStackExecutor` (forwarded). -/
def CheatcodeHandler.exists_ (ops : HandlerOps σ) (self : CheatcodeHandler σ)
    (address : Nat) : Bool :=
  ops.exists_ self.handler address

/-- `Handler::deleted` for `CheatcodeStackExecutor` (forwarded). -/
def CheatcodeHandler.deleted (ops : HandlerOps σ) (self : CheatcodeHandler σ)
    (address : Nat) : Bool :=
  ops.deleted self.handler address

/-- `Handler::is_cold` for `CheatcodeStackExecutor` (forwarded). -/
def CheatcodeHandler.is_cold (ops : HandlerOps σ) (self : CheatcodeHandler σ)
    (address : Nat) (index : Option Nat) : Bool :=
  ops.is_cold self.handler address index

/-- `Handler::set_storage` for `CheatcodeStackExecutor` (forwarded). -/
def CheatcodeHandler.set_storage (ops : HandlerOps σ) (self : CheatcodeHandler σ)
    (address : Nat) (index : Nat) (value : Nat) :
    CheatcodeHandler σ × Option ExitError :=
  let r := ops.set_storage self.handler address index value
  ({ handler := r.1 }, r.2)

/-- `Handler::log` for `CheatcodeStackExecutor` (forwarded). -/
def CheatcodeHandler.log (ops : HandlerOps σ) (self : CheatcodeHandler σ)
    (address : Nat) (topics : List Nat) (data : List Nat) :
    CheatcodeHandler σ × Option ExitError :=
  let r := ops.log self.handler address topics data
  ({ handler := r.1 }, r.2)

/-- `Handler::mark_delete` for `CheatcodeStackExecutor` (forwarded). -/
def CheatcodeHandler.mark_delete (ops : HandlerOps σ) (self : CheatcodeHandler σ)
    (address : Nat) (target : Nat) :
    CheatcodeHandler σ × Option ExitError :=
  let r := ops.mark_delete self.handler address target
  ({ handler := r.1 }, r.2)

/-- `Handler::create` for `CheatcodeStackExecutor` (forwarded). -/
def CheatcodeHandler.create (ops : HandlerOps σ) (self : CheatcodeHandler σ)
    (caller : Nat) (scheme : CreateScheme) (value : Nat) (init_code : List Nat)
    (target_gas : Option Nat) :
    CheatcodeHandler σ × Capture (ExitReason × Option Nat × List Nat) Empty :=
  let r := ops.create self.handler caller scheme value init_code target_gas
  ({ handler := r.1 }, r.2)

/-- `Handler::pre_validate` for `CheatcodeStackExecutor` (forwarded). -/
def CheatcodeHandler.pre_validate (ops : HandlerOps σ) (self : CheatcodeHandler σ)
    (context : Context) (opcode : Nat) (stack : List Nat) :
    CheatcodeHandler σ × Option ExitError :=
  let r := ops.pre_validate self.handler context opcode stack
  ({ handler := r.1 }, r.2)

/-- Empty mocked host: no accounts registered. -/
def emptyHost : MockedHost := ⟨fun _ => none⟩

/-- A mocked host owning, at address 0, an account with nonce 3,
balance 7 and no code. -/
def hostB : MockedHost :=
  ⟨fun a => if a = 0 then some ⟨3, 7, [], [], []⟩ else none⟩

/-- A non-payable, non-constant function descriptor. -/
def func0 : Function := ⟨false, StateMutability.NonPayable⟩

/-- A concrete `EvmOdin` instance over the empty host. -/
def evm0 : EvmOdin MockedHost Unit := ⟨emptyHost, 0, none, Revision.Istanbul, ()⟩

/-- A concrete ABI encoder that always succeeds with empty calldata. -/
def encode0 : Function → Unit → Except String (List Nat) :=
  fun _ _ => Except.ok []

/-- A concrete engine that leaves the host unchanged and succeeds. -/
def execute0 : List Nat → MockedHost → Unit → Message → Revision → MockedHost × Unit × Output :=
  fun _ h t _ _ => (h, t, ⟨StatusCode.Success, 0, [], none⟩)

/-- A concrete ABI decoder that always succeeds. -/
def decode0 : Function → List Nat → Bool → Except String Unit :=
  fun _ _ _ => Except.ok ()

/-- A concrete inner-handler behaviour (constant answers, state kept). -/
def trivialOps : HandlerOps (StackExecutor (CheatcodeStackState Unit Unit) Unit) :=
  { call := fun s _ _ _ _ _ _ => (s, Capture.Exit (ExitReason.Succeed ExitSucceed.Returned, []))
    balance := fun _ _ => 0
    code_size := fun _ _ => 0
    code_hash := fun _ _ => 0
    code := fun _ _ => []
    storage := fun _ _ _ => 0
    original_storage := fun _ _ _ => 0
    gas_left := fun _ => 0
    gas_price := fun _ => 0
    origin := fun _ => 0
    block_hash := fun _ _ => 0
    block_number := fun _ => 0
    block_coinbase := fun _ => 0
    block_timestamp := fun _ => 0
    block_difficulty := fun _ => 0
    block_gas_limit := fun _ => 0
    chain_id := fun _ => 0
    exists_ := fun _ _ => false
    deleted := fun _ _ => false
    is_cold := fun _ _ _ => false
    set_storage := fun s _ _ _ => (s, none)
    log := fun s _ _ _ => (s, none)
    mark_delete := fun s _ _ => (s, none)
    create := fun s _ _ _ _ _ => (s, Capture.Exit (ExitReason.Succeed ExitSucceed.Returned, none, []))
    pre_validate := fun s _ _ _ => (s, none) }

/-- A second inner-handler behaviour whose call operation answers
differently from `trivialOps` (used to show independence). -/
def altOps : HandlerOps (StackExecutor (CheatcodeStackState Unit Unit) Unit) :=
  { trivialOps with
    call := fun s _ _ _ _ _ _ => (s, Capture.Exit (ExitReason.Revert ExitRevert.Reverted, [])) }

/-- A concrete cheatcode stack executor whose cheat context holds no
timestamp override. -/
def exec0 : CheatcodeStackExecutor Unit Unit Unit :=
  ⟨⟨⟨⟨(), ⟨none⟩⟩, ()⟩, ()⟩⟩

/-- A concrete call context. -/
def ctx0 : Context := ⟨0, 0, 0⟩

/-- C1: a call dispatched through `CheatcodeHandler.call` whose
destination is not the reserved cheat address is forwarded to the
wrapped engine with identical arguments and its result returned
unmodified; a call to the cheat address never invokes the wrapped
engine's call path (the outcome equals `apply_cheatcode` and is
independent of the wrapped engine's behaviour). -/
theorem cheatcode_call_dispatch {B ρ ι : Type}
    (ops altops : HandlerOps (StackExecutor (CheatcodeStackState B ρ) ι))
    (self : CheatcodeStackExecutor B ρ ι) (code_address : Nat)
    (transfer : Option Transfer) (input : List Nat) (target_gas : Option Nat)
    (is_static : Bool) (context : Context) :
    (code_address ≠ CHEATCODE_ADDRESS →
      CheatcodeHandler.call ops self code_address transfer input target_gas is_static context =
        ({ handler := (ops.call self.handler code_address transfer input target_gas is_static context).1 },
         (ops.call self.handler code_address transfer input target_gas is_static context).2)) ∧
    (code_address = CHEATCODE_ADDRESS →
      CheatcodeHandler.call ops self code_address transfer input target_gas is_static context =
        apply_cheatcode self input ∧
      CheatcodeHandler.call ops self code_address transfer input target_gas is_static context =
        CheatcodeHandler.call altops self code_address transfer input target_gas is_static context) := by
  constructor
  · intro h
    simp [CheatcodeHandler.call, h]
  · intro h
    constructor <;> simp [CheatcodeHandler.call, h]

/-- Witness for C1: both branches of the dispatch at concrete inputs. -/
theorem cheatcode_call_dispatch_witness :
    CheatcodeHandler.call trivialOps exec0 0 none [] none false ctx0 =
      ({ handler := (trivialOps.call exec0.handler 0 none [] none false ctx0).1 },
       (trivialOps.call exec0.handler 0 none [] none false ctx0).2) ∧
    CheatcodeHandler.call trivialOps exec0 CHEATCODE_ADDRESS none [] none false ctx0 =
      apply_cheatcode exec0 [] ∧
    CheatcodeHandler.call trivialOps exec0 CHEATCODE_ADDRESS none [] none false ctx0 =
      CheatcodeHandler.call altOps exec0 CHEATCODE_ADDRESS none [] none false ctx0 :=
  ⟨(cheatcode_call_dispatch trivialOps altOps exec0 0 none [] none false ctx0).1 (by decide),
   ((cheatcode_call_dispatch trivialOps altOps exec0 CHEATCODE_ADDRESS none [] none false ctx0).2 rfl).1,
   ((cheatcode_call_dispatch trivialOps altOps exec0 CHEATCODE_ADDRESS none [] none false ctx0).2 rfl).2⟩

/-- C2: every `Handler` operation of the interception wrapper other than
the generic call operation is handled and, on every input, returns
exactly what the wrapped inner engine returns on that same input
(state-mutating operations thread the inner engine's updated state and
result through unchanged). -/
theorem cheatcode_forwarding_transparent {σ : Type} (ops : HandlerOps σ)
    (self : CheatcodeHandler σ) (address number index value opcode caller target : Nat)
    (index_o target_gas : Option Nat) (topics data init_code stack : List Nat)
    (scheme : CreateScheme) (context : Context) :
    CheatcodeHandler.balance ops self address = ops.balance self.handler address ∧
    CheatcodeHandler.code_size ops self address = ops.code_size self.handler address ∧
    CheatcodeHandler.code_hash ops self address = ops.code_hash self.handler address ∧
    CheatcodeHandler.code ops self address = ops.code self.handler address ∧
    CheatcodeHandler.storage ops self address index = ops.storage self.handler address index ∧
    CheatcodeHandler.original_storage ops self address index =
      ops.original_storage self.handler address index ∧
    CheatcodeHandler.gas_left ops self = ops.gas_left self.handler ∧
    CheatcodeHandler.gas_price ops self = ops.gas_price self.handler ∧
    CheatcodeHandler.origin ops self = ops.origin self.handler ∧
    CheatcodeHandler.block_hash ops self number = ops.block_hash self.handler number ∧
    CheatcodeHandler.block_number ops self = ops.block_number self.handler ∧
    CheatcodeHandler.block_coinbase ops self = ops.block_coinbase self.handler ∧
    CheatcodeHandler.block_timestamp ops self = ops.block_timestamp self.handler ∧
    CheatcodeHandler.block_difficulty ops self = ops.block_difficulty self.handler ∧
    CheatcodeHandler.block_gas_limit ops self = ops.block_gas_limit self.handler ∧
    CheatcodeHandler.chain_id ops self = ops.chain_id self.handler ∧
    CheatcodeHandler.exists_ ops self address = ops.exists_ self.handler address ∧
    CheatcodeHandler.deleted ops self address = ops.deleted self.handler address ∧
    CheatcodeHandler.is_cold ops self address index_o = ops.is_cold self.handler address index_o ∧
    CheatcodeHandler.set_storage ops self address index value =
      ({ handler := (ops.set_storage self.handler address index value).1 },
       (ops.set_storage self.handler address index value).2) ∧
    CheatcodeHandler.log ops self address topics data =
      ({ handler := (ops.log self.handler address topics data).1 },
       (ops.log self.handler address topics data).2) ∧
    CheatcodeHandler.mark_delete ops self address target =
      ({ handler := (ops.mark_delete self.handler address target).1 },
       (ops.mark_delete self.handler address target).2) ∧
    CheatcodeHandler.create ops self caller scheme value init_code target_gas =
      ({ handler := (ops.create self.handler caller scheme value init_code target_gas).1 },
       (ops.create self.handler caller scheme value init_code target_gas).2) ∧
    CheatcodeHandler.pre_validate ops self context opcode stack =
      ({ handler := (ops.pre_validate self.handler context opcode stack).1 },
       (ops.pre_validate self.handler context opcode stack).2) :=
  ⟨rfl, rfl, rfl, rfl, rfl, rfl, rfl, rfl, rfl, rfl, rfl, rfl,
   rfl, rfl, rfl, rfl, rfl, rfl, rfl, rfl, rfl, rfl, rfl, rfl⟩

/-- C5: `apply_cheatcode`, on every input payload and every state, sets
the cheat context's block-timestamp override to 100 and exits with a
synthesized `Succeed(Stopped)` result carrying 32 bytes of `0x01` (a
non-empty payload), independent of the input data. -/
theorem apply_cheatcode_spec {B ρ ι : Type} (self : CheatcodeStackExecutor B ρ ι)
    (input other_input : List Nat) :
    (apply_cheatcode self input).1.handler.state.backend.cheats.block_timestamp = some 100 ∧
    (apply_cheatcode self input).2 =
      Capture.Exit (ExitReason.Succeed ExitSucceed.Stopped, List.replicate 32 1) ∧
    apply_cheatcode self input = apply_cheatcode self other_input ∧
    List.replicate 32 (1 : Nat) ≠ [] :=
  ⟨rfl, rfl, rfl, by decide⟩

/-- C9 (amended): a call with the static flag set whose destination is
not the cheat address is forwarded to the wrapped engine with the
static flag intact; a static call to the reserved cheat address still
runs cheat processing and mutates the cheat context, setting the
block-timestamp override to 100. -/
theorem static_call_spec {B ρ ι : Type}
    (ops : HandlerOps (StackExecutor (CheatcodeStackState B ρ) ι))
    (self : CheatcodeStackExecutor B ρ ι) (code_address : Nat)
    (transfer : Option Transfer) (input : List Nat) (target_gas : Option Nat)
    (context : Context) :
    (code_address ≠ CHEATCODE_ADDRESS →
      CheatcodeHandler.call ops self code_address transfer input target_gas true context =
        ({ handler := (ops.call self.handler code_address transfer input target_gas true context).1 },
         (ops.call self.handler code_address transfer input target_gas true context).2)) ∧
    (code_address = CHEATCODE_ADDRESS →
      (CheatcodeHandler.call ops self code_address transfer input target_gas true
          context).1.handler.state.backend.cheats.block_timestamp = some 100) := by
  constructor
  · intro h
    simp [CheatcodeHandler.call, h]
  · intro h
    simp [CheatcodeHandler.call, h, apply_cheatcode]

/-- Witness for C9 (amended): both branches at concrete inputs. -/
theorem static_call_spec_witness :
    CheatcodeHandler.call trivialOps exec0 0 none [] none true ctx0 =
      ({ handler := (trivialOps.call exec0.handler 0 none [] none true ctx0).1 },
       (trivialOps.call exec0.handler 0 none [] none true ctx0).2) ∧
    (CheatcodeHandler.call trivialOps exec0 CHEATCODE_ADDRESS none [] none true
        ctx0).1.handler.state.backend.cheats.block_timestamp = some 100 :=
  ⟨(static_call_spec trivialOps exec0 0 none [] none ctx0).1 (by decide),
   (static_call_spec trivialOps exec0 CHEATCODE_ADDRESS none [] none ctx0).2 rfl⟩

/-- Counterexample to C9 as stated: a call with `is_static = true` whose
destination is the reserved cheat address does mutate the cheat
context — the block-timestamp override flips from `none` to `some 100`. -/
theorem static_call_cheat_counterexample :
    exec0.handler.state.backend.cheats.block_timestamp = none ∧
    (CheatcodeHandler.call trivialOps exec0 CHEATCODE_ADDRESS none [] none true
        ctx0).1.handler.state.backend.cheats.block_timestamp = some 100 :=
  ⟨rfl, rfl⟩

/-- Counterexample to C3 as stated: with `should_fail = true`, a normal
success status and an absent `failed()` probe result, the claim predicts
`true` (absent treated as not-failed), but `check_success` returns the
probe value with `unwrap_or(false)` — not its negation — hence `false`. -/
theorem check_success_probe_counterexample :
    EvmOdin.check_success (fun _ => none) 0 StatusCode.Success true = false :=
  rfl

/-- C3 (amended): with `should_fail = false`, `check_success` is true
exactly on normal success; with `should_fail = true` it is true on
revert, equals the `failed()` probe result directly (absent treated as
`false`) on normal success, and is false on every other status. -/
theorem check_success_spec (failed : Address → Option Bool) (address : Address)
    (status : StatusCode) :
    (EvmOdin.check_success failed address status false = true ↔
      status = StatusCode.Success) ∧
    EvmOdin.check_success failed address StatusCode.Revert true = true ∧
    EvmOdin.check_success failed address StatusCode.Success true =
      (failed address).getD false ∧
    (status ≠ StatusCode.Success → status ≠ StatusCode.Revert →
      EvmOdin.check_success failed address status true = false) := by
  refine ⟨?_, rfl, rfl, ?_⟩
  · cases status <;>
      first
        | exact iff_of_true rfl rfl
        | exact iff_of_false (fun h => Bool.noConfusion h)
            (fun h => StatusCode.noConfusion h)
  · intro h1 h2
    cases status <;>
      first
        | exact absurd rfl h1
        | exact absurd rfl h2
        | rfl

/-- Witness for C3 (amended): a non-success, non-revert status under
`should_fail = true` is classified as failure. -/
theorem check_success_spec_witness :
    (StatusCode.OutOfGas ≠ StatusCode.Success ∧
     StatusCode.OutOfGas ≠ StatusCode.Revert) ∧
    EvmOdin.check_success (fun _ => some true) 5 StatusCode.OutOfGas true = false :=
  ⟨⟨by decide, by decide⟩,
   (check_success_spec (fun _ => some true) 5 StatusCode.OutOfGas).2.2.2
     (by decide) (by decide)⟩

/-- C4: when the destination address has no code in the owned state,
`EvmOdin.call` never returns a successful (silent) result, and — as
soon as calldata encoding succeeds — it fails with exactly the
"no contract at destination" lookup error. -/
theorem call_no_contract {S T A D : Type} (he : HostExt S)
    (encode : Function → A → Except String (List Nat))
    (execute : List Nat → S → T → Message → Revision → S × T × Output)
    (decode : Function → List Nat → Bool → Except String D)
    (self : EvmOdin S T) (from_ to_ : Address) (func : Function)
    (args : A) (value : Nat)
    (hcode : he.get_code self.host to_ = none) :
    (∀ r, EvmOdin.call he encode execute decode self from_ to_ func args value ≠
      Except.ok r) ∧
    (∀ calldata, encode func args = Except.ok calldata →
      EvmOdin.call he encode execute decode self from_ to_ func args value =
        Except.error "there should be a smart contract at the destination address") := by
  constructor
  · intro r
    unfold EvmOdin.call
    cases h : encode func args with
    | error e => simp
    | ok calldata => simp [hcode]
  · intro calldata hcd
    unfold EvmOdin.call
    rw [hcd]
    simp [hcode]

/-- Witness for C4: calling address 1 on the empty host fails with the
missing-destination-code error. -/
theorem call_no_contract_witness :
    EvmOdin.call (MockedHost.hostExt (fun _ => [])) encode0 execute0 decode0
        evm0 0 1 func0 () 0 =
      Except.error "there should be a smart contract at the destination address" :=
  (call_no_contract (MockedHost.hostExt (fun _ => [])) encode0 execute0 decode0
    evm0 0 1 func0 () 0 rfl).2 [] rfl

/-- C6: installing `[(A, code)]` through `initialize_contracts` and then
reading `get_code A` returns exactly `code`, and the code hash stored in
the account at `A` is the (opaque keccak256) hash of `code`. -/
theorem initialize_contracts_get_code {T : Type} (hash : List Nat → List Nat)
    (e : EvmOdin MockedHost T) (A : Address) (code : List Nat) :
    MockedHost.get_code
        (EvmOdin.initialize_contracts (MockedHost.hostExt hash) e [(A, code)]).host A =
      some code ∧
    ((EvmOdin.initialize_contracts (MockedHost.hostExt hash) e
        [(A, code)]).host.accounts A).map Account.code_hash = some (hash code) := by
  constructor <;>
    simp [EvmOdin.initialize_contracts, MockedHost.hostExt, MockedHost.set_code,
      MockedHost.get_code]

/-- Counterexample to C7 as stated: a function descriptor whose
mutability is neither view nor pure but whose deprecated `constant`
field is set still gets a static message — the claim predicts `false`
for it. -/
theorem static_flag_counterexample :
    (Function.mk true StateMutability.NonPayable).state_mutability ≠
      StateMutability.View ∧
    (Function.mk true StateMutability.NonPayable).state_mutability ≠
      StateMutability.Pure ∧
    (call_message 0 none 0 0 [] 0 (Function.mk true StateMutability.NonPayable)).is_static =
      true := by
  refine ⟨by decide, by decide, rfl⟩

/-- C7 (amended): the execution message's static flag is true exactly
when the function's deprecated `constant` field is set OR its declared
mutability is view or pure. -/
theorem static_flag_spec (gas_limit : Nat) (call_kind : Option CallKind)
    (from_ to_ : Address) (calldata : List Nat) (value : Nat) (func : Function) :
    (call_message gas_limit call_kind from_ to_ calldata value func).is_static = true ↔
      (func.constant = true ∨ func.state_mutability = StateMutability.View ∨
        func.state_mutability = StateMutability.Pure) := by
  obtain ⟨c, m⟩ := func
  cases c <;> cases m <;> simp [call_message]

/-- Counterexample to C8 as stated: the account at address 0 of `hostB`
holds balance 7 and nonce 3; installing bytecode there with `set_code`
resets both to 0 instead of leaving them unchanged. -/
theorem set_code_balance_counterexample :
    ((hostB.accounts 0).map Account.balance = some 7 ∧
     (hostB.accounts 0).map Account.nonce = some 3) ∧
    (((MockedHost.set_code (fun _ => []) hostB 0 [1]).accounts 0).map Account.balance =
       some 0 ∧
     ((MockedHost.set_code (fun _ => []) hostB 0 [1]).accounts 0).map Account.nonce =
       some 0) :=
  ⟨⟨rfl, rfl⟩, ⟨rfl, rfl⟩⟩

/-- C8 (amended): repeated `set_code` at the same address is idempotent
with last write winning, but `set_code` replaces the account wholesale,
so the balance and nonce at the target address are reset to 0 rather
than preserved. -/
theorem set_code_last_write_wins (hash : List Nat → List Nat) (host : MockedHost)
    (A : Address) (c₁ c₂ code : List Nat) :
    MockedHost.set_code hash (MockedHost.set_code hash host A c₁) A c₂ =
      MockedHost.set_code hash host A c₂ ∧
    ((MockedHost.set_code hash host A code).accounts A).map Account.balance = some 0 ∧
    ((MockedHost.set_code hash host A code).accounts A).map Account.nonce = some 0 := by
  refine ⟨?_, ?_, ?_⟩
  · simp only [MockedHost.set_code, MockedHost.mk.injEq]
    funext a
    by_cases h : a = A <;> simp [h]
  · simp [MockedHost.set_code]
  · simp [MockedHost.set_code]

/-- C10: `set_code` replaces the entire account at the address with a
freshly constructed one: nonce 0, balance 0, the installed code, its
hash, and an empty storage mapping — regardless of what was there
before. -/
theorem set_code_fresh_account (hash : List Nat → List Nat) (host : MockedHost)
    (A : Address) (code : List Nat) :
    (MockedHost.set_code hash host A code).accounts A =
      some { nonce := 0, balance := 0, code := code, code_hash := hash code,
             storage := [] } := by
  simp [MockedHost.set_code]
